import Mathlib

/-!
Verification of the historical_rate repository's market-analysis engine.

The Python sources are shallowly embedded: machine floats become rationals
(`ℚ`), pandas NaN/missing entries become `Option`, numpy arrays become lists,
exceptions become `Except`/dedicated outcome constructors, and upstream HTTP
responses become explicit oracle functions passed as arguments.
-/

namespace HistRate

/-! ## Range chunker: `BitgetService.calculate_api_calls` (src/app/bitget_layer.py)

One chunk descriptor per upstream request, mirroring the dict
`{"start_time": ..., "end_time": ..., "candles": ...}`. -/

structure ApiCall where
  start_time : Int
  end_time : Int
  candles : Nat
  deriving Repr, DecidableEq

/-- The body of the `while total_candles > 0` loop of `calculate_api_calls`.
The remaining candle count strictly decreases each iteration (by
`min remaining 1000 ≥ 1`), so running with `fuel := remaining` is exact;
the fuel makes the recursion structural. -/
def chunkLoopF : Nat → Int → Int → Nat → List ApiCall
  | 0, _, _, _ => []
  | fuel + 1, g, cur, remaining =>
    if remaining = 0 then []
    else
      let candles := min remaining 1000
      let cend := cur + (candles : Int) * g
      { start_time := cur, end_time := cend, candles := candles } ::
        chunkLoopF fuel g (cend + g) (remaining - candles)

/-- Embedding of `calculate_api_calls(start_time, end_time, granularity_ms)`.
`total_candles = (end_time - start_time) // granularity_ms` uses Python floor
division (`Int.fdiv`); a non-positive total yields no loop iterations, which
covers the source's `if total_candles == 0: return []` early exit. The
per-call cap `max_candles_per_call = 1000` is the source's constant. -/
def calculate_api_calls (start_time end_time granularity_ms : Int) : List ApiCall :=
  let total := ((end_time - start_time).fdiv granularity_ms).toNat
  chunkLoopF total granularity_ms start_time total

/-! ## Candle fetcher: `BitgetService.get_candlestick_chart` -/

/-- One OHLCV row as parsed by the fetcher (all seven columns are produced by
`int(...)`/`float(...)`, so they are plain numbers). -/
structure Candle where
  ts : Int
  open_price : ℚ
  high : ℚ
  low : ℚ
  close : ℚ
  volume : ℚ
  notional : ℚ
  deriving Repr, DecidableEq

/-- An upstream HTTP answer for one chunk request: the status code and the
decoded `data` list (only read when the status is 200). -/
structure UpResponse where
  status : Nat
  data : List Candle

/-- Timestamp of the last candle of a batch (`int(data[-1][0])`). -/
def lastTs (l : List Candle) : Int := (l.getLast?.map (·.ts)).getD 0

/-- The `for i, call in enumerate(api_calls)` loop of `get_candlestick_chart`:
`resp` is the upstream oracle indexed by request number, `end_time` the
requested window end (Python truthiness: the `last_timestamp >= end_time`
stop is only armed when `end_time` is nonzero), `acc` the accumulated series.
A non-200 status or an empty batch breaks the loop; otherwise the batch is
appended and the loop continues unless the end was reached. The function is
total: no branch raises. -/
def fetchLoop (resp : Nat → UpResponse) (end_time : Int) :
    List ApiCall → Nat → List Candle → List Candle
  | [], _, acc => acc
  | _ :: rest, i, acc =>
    let r := resp i
    if r.status = 200 then
      if r.data = [] then acc
      else
        let acc2 := acc ++ r.data
        if end_time ≠ 0 ∧ end_time ≤ lastTs r.data then acc2
        else fetchLoop resp end_time rest (i + 1) acc2
    else acc

/-- Embedding of `get_candlestick_chart(symbol, granularity, start_time,
end_time)`: compute the chunk plan, then walk it sequentially from an empty
accumulator. The granularity is already converted to milliseconds. -/
def get_candlestick_chart (resp : Nat → UpResponse)
    (start_time end_time granularity_ms : Int) : List Candle :=
  fetchLoop resp end_time (calculate_api_calls start_time end_time granularity_ms) 0 []

/-! ### Chunker invariants -/

theorem chunkLoopF_remaining_zero (fuel : Nat) (g cur : Int) :
    chunkLoopF fuel g cur 0 = [] := by
  cases fuel <;> simp [chunkLoopF]

/-- Main loop invariant of the chunker, by induction on the fuel: the bar
counts sum to the remaining total, every chunk spans exactly
`candles * granularity` and starts no earlier than the cursor, the head
starts at the cursor, consecutive chunks are separated by exactly one bar
duration, and chunks are pairwise disjoint and ordered. -/
theorem chunkLoopF_spec (g : Int) (hg : 0 < g) :
    ∀ (fuel : Nat) (cur : Int) (remaining : Nat), remaining ≤ fuel →
      (((chunkLoopF fuel g cur remaining).map (·.candles)).sum = remaining) ∧
      (∀ c ∈ chunkLoopF fuel g cur remaining,
        c.end_time = c.start_time + (c.candles : Int) * g ∧ 1 ≤ c.candles ∧
          cur ≤ c.start_time) ∧
      (∀ c, (chunkLoopF fuel g cur remaining).head? = some c → c.start_time = cur) ∧
      ((chunkLoopF fuel g cur remaining).Chain'
        (fun a b => b.start_time = a.end_time + g)) ∧
      ((chunkLoopF fuel g cur remaining).Pairwise
        (fun a b => a.end_time < b.start_time)) := by
  intro fuel
  induction fuel with
  | zero =>
    intro cur remaining h
    have : remaining = 0 := Nat.le_zero.mp h
    subst this
    simp [chunkLoopF]
  | succ f ih =>
    intro cur remaining h
    by_cases h0 : remaining = 0
    · subst h0; simp [chunkLoopF]
    · have hc1 : 1 ≤ min remaining 1000 := by omega
      have hcr : min remaining 1000 ≤ remaining := Nat.min_le_left _ _
      have hle : remaining - min remaining 1000 ≤ f := by omega
      set candles := min remaining 1000 with hcand
      set cend := cur + (candles : Int) * g with hcend
      obtain ⟨ih1, ih2, ih3, ih4, ih5⟩ := ih (cend + g) (remaining - candles) hle
      have hunfold : chunkLoopF (f + 1) g cur remaining =
          { start_time := cur, end_time := cend, candles := candles } ::
            chunkLoopF f g (cend + g) (remaining - candles) := by
        simp [chunkLoopF, h0, ← hcand, ← hcend]
      have hmulpos : 0 < (candles : Int) * g := by
        have : (1 : Int) ≤ (candles : Int) := by exact_mod_cast hc1
        nlinarith
      have hcur_lt : cur < cend + g := by
        rw [hcend]; nlinarith
      refine ⟨?_, ?_, ?_, ?_, ?_⟩
      · rw [hunfold]; simp only [List.map_cons, List.sum_cons, ih1]; omega
      · rw [hunfold]
        intro c hc
        rcases List.mem_cons.mp hc with hc | hc
        · subst hc; exact ⟨rfl, hc1, le_refl _⟩
        · obtain ⟨he, hcn, hcur⟩ := ih2 c hc
          exact ⟨he, hcn, le_of_lt (lt_of_lt_of_le hcur_lt hcur)⟩
      · rw [hunfold]; intro c hc
        simp only [List.head?_cons, Option.some_inj] at hc
        rw [← hc]
      · rw [hunfold]
        rw [List.chain'_cons']
        refine ⟨?_, ih4⟩
        intro b hb
        simp only [Option.mem_def] at hb
        rw [ih3 b hb]
      · rw [hunfold]
        rw [List.pairwise_cons]
        refine ⟨?_, ih5⟩
        intro b hb
        obtain ⟨_, _, hcur⟩ := ih2 b hb
        have : cend < cend + g := by linarith
        exact lt_of_lt_of_le this hcur

theorem fetchLoop_extends (resp : Nat → UpResponse) (end_time : Int) :
    ∀ (calls : List ApiCall) (i : Nat) (acc : List Candle),
      ∃ t, fetchLoop resp end_time calls i acc = acc ++ t := by
  intro calls
  induction calls with
  | nil => intro i acc; exact ⟨[], by simp [fetchLoop]⟩
  | cons c rest ih =>
    intro i acc
    by_cases hs : (resp i).status = 200
    · by_cases hd : (resp i).data = []
      · exact ⟨[], by simp [fetchLoop, hs, hd]⟩
      · by_cases he : end_time ≠ 0 ∧ end_time ≤ lastTs (resp i).data
        · exact ⟨(resp i).data, by simp [fetchLoop, hs, hd, he]⟩
        · obtain ⟨t, ht⟩ := ih (i + 1) (acc ++ (resp i).data)
          refine ⟨(resp i).data ++ t, ?_⟩
          simp only [fetchLoop, if_pos hs, if_neg hd, if_neg he]
          rw [ht, List.append_assoc]
    · exact ⟨[], by simp [fetchLoop, hs]⟩

/-- Claim C1 — the range chunker `calculate_api_calls`, for any window with
`end_ms > start_ms` and positive bar duration, returns chunks separated by
exactly one bar duration (gapless at bar granularity), whose bar counts sum
to `(end_ms - start_ms) div bar_duration_ms`, each spanning exactly
`bars * bar_duration_ms`, pairwise non-overlapping and ordered by start time;
a window with zero whole bars (in particular `start = end`) yields the empty
sequence, and `chunk(0, 60000*1000*2, 60000)` (per-call cap 1000) yields two
chunks of 1000 bars, the second starting at `1000*60000 + 60000`. -/
theorem calculate_api_calls_correct (s e g : Int) (hse : s < e) (hg : 0 < g) :
    ((calculate_api_calls s e g).Chain' (fun a b => b.start_time = a.end_time + g)) ∧
    (((calculate_api_calls s e g).map (·.candles)).sum = ((e - s).fdiv g).toNat) ∧
    (∀ c ∈ calculate_api_calls s e g,
      c.end_time = c.start_time + (c.candles : Int) * g) ∧
    ((calculate_api_calls s e g).Pairwise (fun a b => a.end_time < b.start_time)) ∧
    ((calculate_api_calls s e g).Pairwise (fun a b => a.start_time < b.start_time)) ∧
    (e - s < g → calculate_api_calls s e g = []) ∧
    (calculate_api_calls s s g = []) ∧
    (calculate_api_calls 0 (60000 * 1000 * 2) 60000 =
      [⟨0, 60000000, 1000⟩, ⟨60060000, 120060000, 1000⟩]) := by
  obtain ⟨h1, h2, h3, h4, h5⟩ :=
    chunkLoopF_spec g hg (((e - s).fdiv g).toNat) s (((e - s).fdiv g).toNat) le_rfl
  have hmem : ∀ c ∈ calculate_api_calls s e g,
      c.end_time = c.start_time + (c.candles : Int) * g := fun c hc => (h2 c hc).1
  have hself : ∀ c ∈ calculate_api_calls s e g, c.start_time < c.end_time := by
    intro c hc
    obtain ⟨he', hc1, _⟩ := h2 c hc
    have : (1 : Int) ≤ (c.candles : Int) := by exact_mod_cast hc1
    rw [he']; nlinarith
  refine ⟨h4, h1, hmem, h5, ?_, ?_, ?_, ?_⟩
  · exact h5.imp_of_mem (fun {a b} ha hb hab =>
      lt_trans (hself a ha) hab)
  · intro hlt
    have h0 : (e - s).fdiv g = 0 := by
      rw [Int.fdiv_eq_ediv _ hg.le]
      exact Int.ediv_eq_zero_of_lt (by omega) hlt
    unfold calculate_api_calls
    rw [h0]
    rfl
  · unfold calculate_api_calls
    simp only [sub_self, Int.zero_fdiv, Int.toNat_zero]
    exact chunkLoopF_remaining_zero 0 g s
  · decide

/-- Witness for C1: the exact-page-boundary scenario, obtained by applying
`calculate_api_calls_correct` at the concrete window. -/
theorem calculate_api_calls_witness :
    calculate_api_calls 0 (60000 * 1000 * 2) 60000 =
      [⟨0, 60000000, 1000⟩, ⟨60060000, 120060000, 1000⟩] :=
  (calculate_api_calls_correct 0 (60000 * 1000 * 2) 60000 (by norm_num)
    (by norm_num)).2.2.2.2.2.2.2

/-- Claim C5 — the candle fetcher walks the chunk plan sequentially, appending
each 200-status nonempty batch in order, and stops early returning the partial
accumulation when (1) a batch is empty, (2) the last timestamp of a batch
reaches the requested nonzero `end_ms` (even with chunks remaining), or (3)
the upstream status is not 200; in every case the accumulated prefix is
returned and no branch raises (the embedding is a total function). -/
theorem get_candlestick_chart_correct (resp : Nat → UpResponse) (et : Int)
    (c : ApiCall) (rest : List ApiCall) (i : Nat) (acc : List Candle) :
    (fetchLoop resp et [] i acc = acc) ∧
    ((resp i).status ≠ 200 → fetchLoop resp et (c :: rest) i acc = acc) ∧
    ((resp i).status = 200 → (resp i).data = [] →
      fetchLoop resp et (c :: rest) i acc = acc) ∧
    ((resp i).status = 200 → (resp i).data ≠ [] → et ≠ 0 →
      et ≤ lastTs (resp i).data →
      fetchLoop resp et (c :: rest) i acc = acc ++ (resp i).data) ∧
    ((resp i).status = 200 → (resp i).data ≠ [] →
      ¬(et ≠ 0 ∧ et ≤ lastTs (resp i).data) →
      fetchLoop resp et (c :: rest) i acc =
        fetchLoop resp et rest (i + 1) (acc ++ (resp i).data)) ∧
    (∀ calls : List ApiCall, ∃ t, fetchLoop resp et calls i acc = acc ++ t) ∧
    (∀ s g : Int, get_candlestick_chart resp s et g =
      fetchLoop resp et (calculate_api_calls s et g) 0 []) := by
  refine ⟨by simp [fetchLoop], ?_, ?_, ?_, ?_, fun calls => fetchLoop_extends resp et calls i acc,
    fun s g => rfl⟩
  · intro hs; simp [fetchLoop, hs]
  · intro hs hd; simp [fetchLoop, hs, hd]
  · intro hs hd h0 hts
    simp only [fetchLoop, if_pos hs, if_neg hd, if_pos (And.intro h0 hts)]
  · intro hs hd hn
    simp only [fetchLoop, if_pos hs, if_neg hd, if_neg hn]

/-- Witness for C5: a non-200 upstream answer on the first chunk returns the
(empty) accumulation, by `get_candlestick_chart_correct`. -/
theorem get_candlestick_chart_witness :
    fetchLoop (fun _ => { status := 500, data := [] }) 0 [⟨0, 0, 0⟩] 0 [] = [] :=
  (get_candlestick_chart_correct (fun _ => { status := 500, data := [] }) 0
    ⟨0, 0, 0⟩ [] 0 []).2.1 (by decide)

/-! ## Sentiment fusion: `FundingRateChart.market_sentiment`
(src/src/app/chart_analysis.py, lines 506-537) and the funding-rate
placeholder `get_funding_rate` (lines 539-545). Votes are the Python strings
manipulated by the source. -/

/-- `sentiments.count("bullish") + sentiments.count("optimistic") +
sentiments.count("positive")`. -/
def bullishCount (l : List String) : Nat :=
  l.count "bullish" + l.count "optimistic" + l.count "positive"

/-- `sentiments.count("bearish") + sentiments.count("pessimistic") +
sentiments.count("negative")`. -/
def bearishCount (l : List String) : Nat :=
  l.count "bearish" + l.count "pessimistic" + l.count "negative"

/-- The majority step of `market_sentiment`: strict majority wins, a winning
count of at least 3 upgrades to the "highly" label, a tie is "mixed". -/
def voteResult (b r : Nat) : String :=
  if r < b then (if 3 ≤ b then "highly positive" else "positive")
  else if b < r then (if 3 ≤ r then "highly negative" else "negative")
  else "mixed"

/-- The `if volatility_sentiment == "uncertain": sentiment = "uncertain"`
override. -/
def applyUncertain (volat s : String) : String :=
  if volat = "uncertain" then "uncertain" else s

/-- The final tightening: `"positive"` with a bullish price vote becomes
`"bullish"`, `"negative"` with a bearish price vote becomes `"bearish"`. -/
def tightenLabel (price s : String) : String :=
  if s = "positive" ∧ price = "bullish" then "bullish"
  else if s = "negative" ∧ price = "bearish" then "bearish"
  else s

/-- The fusion of the four categorical votes (funding-direction, price-trend,
volatility-level, volume-change) computed at the end of `market_sentiment`:
count bullish and bearish votes over `sentiments = [funding, price, volat,
volume]`, take the majority verdict, apply the uncertain-volatility override,
then tighten. -/
def market_sentiment (funding price volat volume : String) : String :=
  tightenLabel price
    (applyUncertain volat
      (voteResult (bullishCount [funding, price, volat, volume])
        (bearishCount [funding, price, volat, volume])))

/-- `get_funding_rate` (placeholder in the source): returns the constant
`0.01` for every symbol and period. -/
def get_funding_rate (_symbol : String) (_period : Int) : ℚ := 1 / 100

/-- The funding-direction vote of `market_sentiment`:
`funding_rate > 0.1` is "bearish", `< -0.1` is "bullish", else "neutral". -/
def fundingSentiment (fr : ℚ) : String :=
  if 1 / 10 < fr then "bearish"
  else if fr < -(1 / 10) then "bullish"
  else "neutral"

/-- `market_sentiment` as actually invoked: the funding vote is derived from
`get_funding_rate(period)`, the other three votes are given. -/
def sentimentWithFunding (symbol : String) (period : Int)
    (price volat volume : String) : String :=
  market_sentiment (fundingSentiment (get_funding_rate symbol period))
    price volat volume

/-- Claim C2 — the fusion is order-independent (the counts are invariant under
permutation of the vote list) and deterministic; a strict bullish majority
yields "positive", upgraded to "highly positive" when the winning count
reaches 3 (of at most 4), symmetrically for bearish; an equal count with no
uncertain volatility vote yields "mixed"; an "uncertain" volatility vote
unconditionally overrides the verdict; and a bare "positive"/"negative"
verdict is tightened to "bullish"/"bearish" exactly when the price-trend vote
agrees directionally. -/
theorem market_sentiment_fusion (f p vl vm : String) :
    (∀ l : List String, l.Perm [f, p, vl, vm] →
      bullishCount l = bullishCount [f, p, vl, vm] ∧
      bearishCount l = bearishCount [f, p, vl, vm]) ∧
    (vl = "uncertain" → market_sentiment f p vl vm = "uncertain") ∧
    (vl ≠ "uncertain" → bullishCount [f, p, vl, vm] = bearishCount [f, p, vl, vm] →
      market_sentiment f p vl vm = "mixed") ∧
    (vl ≠ "uncertain" → bearishCount [f, p, vl, vm] < bullishCount [f, p, vl, vm] →
      3 ≤ bullishCount [f, p, vl, vm] →
      market_sentiment f p vl vm = "highly positive") ∧
    (vl ≠ "uncertain" → bearishCount [f, p, vl, vm] < bullishCount [f, p, vl, vm] →
      bullishCount [f, p, vl, vm] < 3 →
      market_sentiment f p vl vm = if p = "bullish" then "bullish" else "positive") ∧
    (vl ≠ "uncertain" → bullishCount [f, p, vl, vm] < bearishCount [f, p, vl, vm] →
      3 ≤ bearishCount [f, p, vl, vm] →
      market_sentiment f p vl vm = "highly negative") ∧
    (vl ≠ "uncertain" → bullishCount [f, p, vl, vm] < bearishCount [f, p, vl, vm] →
      bearishCount [f, p, vl, vm] < 3 →
      market_sentiment f p vl vm = if p = "bearish" then "bearish" else "negative") := by
  set b := bullishCount [f, p, vl, vm] with hb
  set r := bearishCount [f, p, vl, vm] with hr
  refine ⟨?_, ?_, ?_, ?_, ?_, ?_, ?_⟩
  · intro l hl
    constructor
    · unfold bullishCount
      rw [hl.count_eq, hl.count_eq, hl.count_eq]
      rfl
    · unfold bearishCount
      rw [hl.count_eq, hl.count_eq, hl.count_eq]
      rfl
  · intro h
    simp [market_sentiment, applyUncertain, tightenLabel, h]
  · intro hvl htie
    unfold market_sentiment voteResult applyUncertain
    rw [← hb, ← hr, if_neg (by omega : ¬ r < b), if_neg (by omega : ¬ b < r),
      if_neg hvl]
    rfl
  · intro hvl hlt h3
    unfold market_sentiment voteResult applyUncertain
    rw [← hb, ← hr, if_pos hlt, if_pos h3, if_neg hvl]
    rfl
  · intro hvl hlt h3
    unfold market_sentiment voteResult applyUncertain
    rw [← hb, ← hr, if_pos hlt, if_neg (by omega : ¬ 3 ≤ b), if_neg hvl]
    by_cases hp : p = "bullish" <;> simp [tightenLabel, hp]
  · intro hvl hlt h3
    unfold market_sentiment voteResult applyUncertain
    rw [← hb, ← hr, if_neg (by omega : ¬ r < b), if_pos hlt, if_pos h3,
      if_neg hvl]
    rfl
  · intro hvl hlt h3
    unfold market_sentiment voteResult applyUncertain
    rw [← hb, ← hr, if_neg (by omega : ¬ r < b), if_pos hlt,
      if_neg (by omega : ¬ 3 ≤ r), if_neg hvl]
    by_cases hp : p = "bearish" <;> simp [tightenLabel, hp]

/-- Witness for C2: the spec's fusion-tie scenario — a 2-bullish/2-bearish
split with no uncertain vote fuses to "mixed", by `market_sentiment_fusion`. -/
theorem market_sentiment_fusion_witness :
    market_sentiment "bullish" "bullish" "bearish" "pessimistic" = "mixed" :=
  (market_sentiment_fusion "bullish" "bullish" "bearish" "pessimistic").2.2.1
    (by decide) (by decide)

theorem count_triple_cons (a : String) (l : List String) (s1 s2 s3 : String)
    (h12 : s1 ≠ s2) (h13 : s1 ≠ s3) (h23 : s2 ≠ s3) :
    List.count s1 (a :: l) + List.count s2 (a :: l) + List.count s3 (a :: l) ≤
      List.count s1 l + List.count s2 l + List.count s3 l + 1 := by
  simp only [List.count_cons, beq_iff_eq]
  by_cases h1 : a = s1
  · by_cases h2 : a = s2
    · exact absurd (h1.symm.trans h2) h12
    · by_cases h3 : a = s3
      · exact absurd (h1.symm.trans h3) h13
      · rw [if_pos h1, if_neg h2, if_neg h3]; omega
  · by_cases h2 : a = s2
    · by_cases h3 : a = s3
      · exact absurd (h2.symm.trans h3) h23
      · rw [if_neg h1, if_pos h2, if_neg h3]; omega
    · by_cases h3 : a = s3
      · rw [if_neg h1, if_neg h2, if_pos h3]; omega
      · rw [if_neg h1, if_neg h2, if_neg h3]; omega

theorem bullishCount_le_length (l : List String) : bullishCount l ≤ l.length := by
  induction l with
  | nil => simp [bullishCount]
  | cons a t ih =>
    have h := count_triple_cons a t "bullish" "optimistic" "positive"
      (by decide) (by decide) (by decide)
    unfold bullishCount at *
    simp only [List.length_cons]
    omega

theorem bearishCount_le_length (l : List String) : bearishCount l ≤ l.length := by
  induction l with
  | nil => simp [bearishCount]
  | cons a t ih =>
    have h := count_triple_cons a t "bearish" "pessimistic" "negative"
      (by decide) (by decide) (by decide)
    unfold bearishCount at *
    simp only [List.length_cons]
    omega

theorem bullishCount_neutral_cons (l : List String) :
    bullishCount ("neutral" :: l) = bullishCount l := by
  unfold bullishCount
  simp [List.count_cons]

theorem bearishCount_neutral_cons (l : List String) :
    bearishCount ("neutral" :: l) = bearishCount l := by
  unfold bearishCount
  simp [List.count_cons]

/-- Claim C10 — `get_funding_rate` returns the constant `0.01` for every
symbol and period; `0.01` lies strictly between the thresholds `-0.1` and
`0.1`, so the funding-direction vote is always "neutral"; consequently at
most three of the four fusion votes can be directional (a 4-vote majority is
unreachable), and the computed market sentiment does not depend on the
funding arguments at all. -/
theorem get_funding_rate_constant :
    (∀ (symbol : String) (period : Int), get_funding_rate symbol period = 1 / 100) ∧
    (-(1 : ℚ) / 10 < 1 / 100 ∧ (1 : ℚ) / 100 < 1 / 10) ∧
    (∀ (symbol : String) (period : Int),
      fundingSentiment (get_funding_rate symbol period) = "neutral") ∧
    (∀ (symbol : String) (period : Int) (p vl vm : String),
      bullishCount [fundingSentiment (get_funding_rate symbol period), p, vl, vm] ≤ 3 ∧
      bearishCount [fundingSentiment (get_funding_rate symbol period), p, vl, vm] ≤ 3) ∧
    (∀ (sym1 : String) (per1 : Int) (sym2 : String) (per2 : Int)
      (p vl vm : String),
      sentimentWithFunding sym1 per1 p vl vm = sentimentWithFunding sym2 per2 p vl vm) := by
  have hneutral : ∀ (symbol : String) (period : Int),
      fundingSentiment (get_funding_rate symbol period) = "neutral" := by
    intro symbol period
    norm_num [get_funding_rate, fundingSentiment]
  refine ⟨fun _ _ => rfl, by norm_num, hneutral, ?_, ?_⟩
  · intro symbol period p vl vm
    have hn := hneutral symbol period
    rw [hn]
    constructor
    · rw [bullishCount_neutral_cons]
      have := bullishCount_le_length [p, vl, vm]
      simpa using this
    · rw [bearishCount_neutral_cons]
      have := bearishCount_le_length [p, vl, vm]
      simpa using this
  · intro sym1 per1 sym2 per2 p vl vm
    unfold sentimentWithFunding
    rw [hneutral sym1 per1, hneutral sym2 per2]

/-! ## Report assembly and sanitization: `FundingRateChart.set_analysis`
(src/src/app/chart_analysis.py, lines 61-79). The orchestration and fetching
are I/O; the assembly takes the computed indicator values as parameters. A
Python float is modelled by `PyFloat` (finite rational, NaN, or a signed
infinity); a value that may be `None` is an `Option PyFloat`. -/

inductive PyFloat where
  | finite (q : ℚ)
  | nan
  | inf (neg : Bool)
  deriving Repr, DecidableEq

/-- Negation of `pd.isna(value) or np.isinf(value)` for a float value. -/
def PyFloat.isFinite : PyFloat → Bool
  | .finite _ => true
  | .nan => false
  | .inf _ => false

/-- The result dict of `set_analysis`: the four numeric fields (checked by
`isinstance(value, float)` in the sanitization loop) and the string fields
(skipped by that check). -/
structure Report where
  period : String
  variation_8h : Option PyFloat
  variation_10m : Option PyFloat
  daily_trend : String
  weekly_trend : String
  volatility_index : Option PyFloat
  average_trading_volume : Option PyFloat
  sentiment : String
  deriving Repr, DecidableEq

/-- One iteration of the sanitization loop on a numeric field: a float value
that is NaN or infinite is replaced by `None`; `None` itself is not a float
instance and is left untouched. -/
def sanitizeField : Option PyFloat → Option PyFloat
  | some v => if v.isFinite then some v else none
  | none => none

/-- The `for key, value in result.items()` sanitization loop: every numeric
field is passed through `sanitizeField`; string fields fail the
`isinstance(value, float)` test and are untouched. -/
def sanitize_report (r : Report) : Report :=
  { r with
    variation_8h := sanitizeField r.variation_8h
    variation_10m := sanitizeField r.variation_10m
    volatility_index := sanitizeField r.volatility_index
    average_trading_volume := sanitizeField r.average_trading_volume }

/-- The tail of `set_analysis`: assemble the result dict from the computed
indicator values (`h8`/`h10`/`avgVol` are floats, the volatility index may
already be `None`) and run the sanitization loop before returning. -/
def set_analysis (periodStr : String) (h8 h10 : PyFloat)
    (daily weekly : String) (vol : Option PyFloat) (avgVol : PyFloat)
    (sentiment : String) : Report :=
  sanitize_report
    { period := periodStr
      variation_8h := some h8
      variation_10m := some h10
      daily_trend := daily
      weekly_trend := weekly
      volatility_index := vol
      average_trading_volume := some avgVol
      sentiment := sentiment }

theorem sanitizeField_finite_or_none (v : Option PyFloat) :
    sanitizeField v = none ∨ ∃ q, sanitizeField v = some (.finite q) := by
  rcases v with _ | v
  · exact Or.inl rfl
  · rcases v with q | _ | b
    · exact Or.inr ⟨q, rfl⟩
    · exact Or.inl rfl
    · exact Or.inl rfl

/-- Claim C3 — every report returned by `set_analysis` satisfies the
sanitization invariant: each of the four numeric fields is either a finite
number or the explicit unavailable marker `None`; in particular a computed
NaN or infinite value is replaced by the marker before the report is
returned (shown here for a NaN 8h-variation and an infinite volume). -/
theorem set_analysis_sanitized (periodStr : String) (h8 h10 : PyFloat)
    (daily weekly : String) (vol : Option PyFloat) (avgVol : PyFloat)
    (sentiment : String) :
    ((set_analysis periodStr h8 h10 daily weekly vol avgVol sentiment).variation_8h = none ∨
      ∃ q, (set_analysis periodStr h8 h10 daily weekly vol avgVol sentiment).variation_8h =
        some (.finite q)) ∧
    ((set_analysis periodStr h8 h10 daily weekly vol avgVol sentiment).variation_10m = none ∨
      ∃ q, (set_analysis periodStr h8 h10 daily weekly vol avgVol sentiment).variation_10m =
        some (.finite q)) ∧
    ((set_analysis periodStr h8 h10 daily weekly vol avgVol sentiment).volatility_index = none ∨
      ∃ q, (set_analysis periodStr h8 h10 daily weekly vol avgVol sentiment).volatility_index =
        some (.finite q)) ∧
    ((set_analysis periodStr h8 h10 daily weekly vol avgVol sentiment).average_trading_volume = none ∨
      ∃ q, (set_analysis periodStr h8 h10 daily weekly vol avgVol sentiment).average_trading_volume =
        some (.finite q)) ∧
    ((set_analysis periodStr PyFloat.nan h10 daily weekly vol avgVol sentiment).variation_8h = none) ∧
    ((set_analysis periodStr h8 h10 daily weekly vol (PyFloat.inf false) sentiment).average_trading_volume = none) := by
  refine ⟨?_, ?_, ?_, ?_, rfl, rfl⟩
  · exact sanitizeField_finite_or_none (some h8)
  · exact sanitizeField_finite_or_none (some h10)
  · exact sanitizeField_finite_or_none vol
  · exact sanitizeField_finite_or_none (some avgVol)

/-! ## Medium-horizon variation: `FundingRateChart.get_8h_variation`
(src/src/app/chart_analysis.py, lines 81-103). The two fetches are modelled
by an oracle from the granularity string to the fetched batch. The emptiness
test is numpy truthiness: `not candle_stick_data.any()` holds exactly when no
entry of the array is nonzero — which includes, but is not limited to, the
empty array. -/

/-- Truthiness of one row of the numpy object array: some field is nonzero. -/
def candleTruthy (c : Candle) : Bool :=
  decide (¬(c.ts = 0 ∧ c.open_price = 0 ∧ c.high = 0 ∧ c.low = 0 ∧
    c.close = 0 ∧ c.volume = 0 ∧ c.notional = 0))

/-- `candle_stick_data.any()`: true when some entry of the array is nonzero;
false for the empty array. -/
def arrAny (l : List Candle) : Bool := l.any candleTruthy

/-- `((start_price - end_price) / end_price) * 100` with
`start_price = df['open'].iloc[0]` and `end_price = df['close'].iloc[-1]`. -/
def variation_8h (d : List Candle) : ℚ :=
  let start_price := (d.head?.map (·.open_price)).getD 0
  let end_price := (d.getLast?.map (·.close)).getD 0
  (start_price - end_price) / end_price * 100

/-- Embedding of `get_8h_variation`: fetch at 1H; when the batch fails the
truthiness test, fetch once more at 4H; when that also fails, raise. The
returned flag records whether the 4H retry was used. -/
def get_8h_variation (fetch : String → List Candle) : Except Unit (ℚ × Bool) :=
  let d1 := fetch "1H"
  if arrAny d1 then .ok (variation_8h d1, false)
  else
    let d2 := fetch "4H"
    if arrAny d2 then .ok (variation_8h d2, true)
    else .error ()

/-- A 1H batch consisting of one all-zero row: nonempty, yet falsy for
`.any()`. The 4H batch is a normal row. -/
def fetch8hZero : String → List Candle := fun g =>
  if g = "1H" then [⟨0, 0, 0, 0, 0, 0, 0⟩] else [⟨1, 2, 2, 2, 2, 2, 2⟩]

/-- Counterexample to C4 as stated: the 1H fetch returns a NONempty batch
(one all-zero candle), yet `get_8h_variation` still retries at 4H (flag
`true`), because the source tests `not candle_stick_data.any()` — numpy
truthiness — rather than emptiness. So the retry does happen in a
circumstance other than an empty fine-granularity series. -/
theorem get_8h_variation_cex :
    fetch8hZero "1H" ≠ [] ∧
    get_8h_variation fetch8hZero = .ok (0, true) := by
  constructor
  · decide
  · have h1 : arrAny (fetch8hZero "1H") = false := by decide
    have h2 : fetch8hZero "4H" = [⟨1, 2, 2, 2, 2, 2, 2⟩] := rfl
    have h4 : arrAny [(⟨1, 2, 2, 2, 2, 2, 2⟩ : Candle)] = true := by decide
    simp [get_8h_variation, h1, h2, h4]
    norm_num [variation_8h]

/-- Claim C4 (amended) — `get_8h_variation` computes
`(open_of_first_bar - close_of_last_bar) / close_of_last_bar * 100` on the
batch it uses; the 4H retry happens exactly when the 1H batch fails the numpy
truthiness test (`.any()` false — in particular when it is empty), and when
the 4H batch also fails that test the computation raises (`DataUnavailable`);
a truthy 1H batch is used directly with no retry. -/
theorem get_8h_variation_correct (fetch : String → List Candle) :
    (arrAny (fetch "1H") = true →
      get_8h_variation fetch = .ok (variation_8h (fetch "1H"), false)) ∧
    (arrAny (fetch "1H") = false → arrAny (fetch "4H") = true →
      get_8h_variation fetch = .ok (variation_8h (fetch "4H"), true)) ∧
    (arrAny (fetch "1H") = false → arrAny (fetch "4H") = false →
      get_8h_variation fetch = .error ()) ∧
    (∀ d : List Candle, variation_8h d =
      (((d.head?.map (·.open_price)).getD 0) - ((d.getLast?.map (·.close)).getD 0)) /
        ((d.getLast?.map (·.close)).getD 0) * 100) := by
  refine ⟨?_, ?_, ?_, fun d => rfl⟩
  · intro h1; simp [get_8h_variation, h1]
  · intro h1 h4; simp [get_8h_variation, h1, h4]
  · intro h1 h4; simp [get_8h_variation, h1, h4]

/-- Witness for C4: a truthy 1H batch (open 2, close 4) yields
`(2 - 4)/4 * 100 = -50` with no retry, by `get_8h_variation_correct`. -/
theorem get_8h_variation_witness :
    get_8h_variation (fun _ => [⟨1, 2, 2, 2, 4, 0, 0⟩]) =
      .ok (-50, false) := by
  have h := (get_8h_variation_correct (fun _ => [⟨1, 2, 2, 2, 4, 0, 0⟩])).1 (by decide)
  rw [h]
  norm_num [variation_8h]

/-! ## Short-horizon variation: `FundingRateChart.get_10m_variation`
(src/src/app/chart_analysis.py, lines 105-136). After the fetch, the close
column goes through `pd.to_numeric(errors='coerce')` and `dropna`, so a
missing/non-numeric close is `none`. numpy truthiness: a NaN entry is truthy,
so only `some 0` closes are falsy. -/

structure ARow where
  ts : Int
  open_price : ℚ
  high : ℚ
  low : ℚ
  close : Option ℚ
  volume : ℚ
  notional : ℚ
  deriving Repr, DecidableEq

/-- Row truthiness for the object array: some entry nonzero (NaN counts as
truthy, hence only `close = some 0` is a falsy close entry). -/
def aRowTruthy (r : ARow) : Bool :=
  decide (¬(r.ts = 0 ∧ r.open_price = 0 ∧ r.high = 0 ∧ r.low = 0 ∧
    r.close = some 0 ∧ r.volume = 0 ∧ r.notional = 0))

/-- `candle_stick_data.any()` on the raw fetched rows. -/
def aAny (l : List ARow) : Bool := l.any aRowTruthy

/-- `df10m.dropna(subset=['close'])`: keep only rows with a numeric close. -/
def tenMClean (data : List ARow) : List ARow :=
  data.filter (fun r => r.close.isSome)

/-- `series.min()` over a nonempty rational column (pandas min; the empty
case cannot be reached where this is used). -/
def listMin : List ℚ → ℚ
  | [] => 0
  | x :: xs => xs.foldl min x

/-- Embedding of `get_10m_variation`: raise when the fetched array is falsy;
otherwise clean the close column; with fewer than 2 valid rows return `0.0`;
otherwise `(open_of_first_row - min_low) / min_low` over the cleaned rows. -/
def get_10m_variation (data : List ARow) : Except Unit ℚ :=
  if aAny data then
    let df := tenMClean data
    if df.length < 2 then .ok 0
    else
      let start_price := (df.head?.map (·.open_price)).getD 0
      let lowest_price := listMin (df.map (·.low))
      .ok ((start_price - lowest_price) / lowest_price)
  else .error ()

/-- Counterexample to C6 as stated: the empty fetched series has 0 valid
points (fewer than 2), yet `get_10m_variation` raises
(`"The chart is not available."`) instead of returning the no-op `0.0` —
the `not candle_stick_data.any()` guard fires before the point-count check. -/
theorem get_10m_variation_cex :
    (tenMClean ([] : List ARow)).length < 2 ∧
    get_10m_variation ([] : List ARow) = .error () := by
  constructor
  · decide
  · rfl

/-- Claim C6 (amended) — for any fetched series that passes the numpy
truthiness guard (`.any()` true; a falsy series, in particular an empty one,
raises instead): after discarding rows with missing/non-numeric closes, fewer
than 2 valid rows yield the defined no-op `0.0`, and at least 2 valid rows
yield `(open_of_first_row - minimum_low) / minimum_low` over the cleaned
rows (not expressed as a percentage). -/
theorem get_10m_variation_correct (data : List ARow) (hA : aAny data = true) :
    ((tenMClean data).length < 2 → get_10m_variation data = .ok 0) ∧
    (2 ≤ (tenMClean data).length →
      get_10m_variation data =
        .ok (((((tenMClean data).head?.map (·.open_price)).getD 0) -
              listMin ((tenMClean data).map (·.low))) /
            listMin ((tenMClean data).map (·.low)))) := by
  constructor
  · intro hlen
    simp [get_10m_variation, hA, hlen]
  · intro hlen
    simp [get_10m_variation, hA, Nat.not_lt.mpr hlen]

/-- Witness for C6: two valid rows with opens 10/11 and lows 8/6 yield
`(10 - 6)/6 = 2/3`, by `get_10m_variation_correct`. -/
theorem get_10m_variation_witness :
    get_10m_variation
      [⟨1, 10, 0, 8, some 9, 0, 0⟩, ⟨2, 11, 0, 6, some 7, 0, 0⟩] =
      .ok (2 / 3) := by
  have h := (get_10m_variation_correct
    [⟨1, 10, 0, 8, some 9, 0, 0⟩, ⟨2, 11, 0, 6, some 7, 0, 0⟩]
    (by decide)).2 (by decide)
  rw [h]
  norm_num [tenMClean, listMin]

/-! ## Volatility index: `FundingRateChart.get_volatility_index`
(src/src/app/chart_analysis.py, lines 329-376). The input is the `df10m`
attribute: `none` when `get_10m_variation` never populated it. The numeric
value involves real logarithms and square roots; the outcome constructor
`computed` records the positive cleaned closes the source computes the
log-returns from, which is all the claim needs. -/

inductive VolOutcome where
  | raised
  | unavailable
  | computed (closes : List ℚ)
  deriving Repr, DecidableEq

/-- The positive numeric closes: `to_numeric(errors='coerce')`, `dropna`,
then `df10m[df10m['close'] > 0]`. -/
def volCloses (rows : List ARow) : List ℚ :=
  ((rows.filter (fun r => r.close.isSome)).map (fun r => r.close.getD 0)).filter
    (fun c => 0 < c)

/-- Embedding of `get_volatility_index`: an unpopulated `df10m` raises
(`ValueError`, the caller-sequencing error); otherwise the log-return column
has `closes.length - 1` valid entries (the first is NaN and is dropped), and
fewer than 2 of them yield the unavailable marker `None`; otherwise the
annualized volatility is computed from the retained closes. -/
def get_volatility_index (df10m : Option (List ARow)) : VolOutcome :=
  match df10m with
  | none => .raised
  | some rows =>
    let closes := volCloses rows
    if closes.length - 1 < 2 then .unavailable
    else .computed closes

/-- Claim C9 — calling the volatility computation before the short-horizon
series is populated raises (a sequencing error), while a populated series
with fewer than 2 valid log-returns yields the unavailable marker without
raising; the two outcomes are distinct. -/
theorem get_volatility_index_correct :
    (get_volatility_index none = .raised) ∧
    (∀ rows : List ARow, (volCloses rows).length - 1 < 2 →
      get_volatility_index (some rows) = .unavailable) ∧
    (VolOutcome.raised ≠ VolOutcome.unavailable) := by
  refine ⟨rfl, ?_, by decide⟩
  intro rows h
  simp [get_volatility_index, h]

/-- Witness for C9: a populated series with a single positive close has zero
valid log-returns and yields the unavailable marker, by
`get_volatility_index_correct`; the unpopulated call raises. -/
theorem get_volatility_index_witness :
    get_volatility_index (some [⟨1, 1, 1, 1, some 5, 1, 1⟩]) = .unavailable :=
  (get_volatility_index_correct).2.1 [⟨1, 1, 1, 1, some 5, 1, 1⟩] (by decide)

/-! ## Trend classification: `get_daily_trend` (lines 139-237) and
`get_weekly_trends` (lines 242-327).

Both classifiers use only the close column (plus the first open for the
weekly change). `rolling(window=k).mean().iloc[-1]` is NaN exactly when the
series is shorter than `k`, modelled by `lastRollingMean`. The standard
deviation of the percentage price changes is only ever compared against the
threshold `2.0`; since `std > t ↔ variance > t^2` for `t ≥ 0`, the
comparison is embedded on the (rational) sample variance, avoiding the
irrational square root. Python comparisons with NaN are false, modelled by
the `Option`-aware comparison helpers. -/

/-- Stable insertion of a row into a timestamp-sorted list. -/
def insertTs (r : ARow) : List ARow → List ARow
  | [] => [r]
  | x :: xs => if r.ts < x.ts then r :: x :: xs else x :: insertTs r xs

/-- `df.sort_values('datetime')`: sort rows by timestamp. -/
def sortTs (l : List ARow) : List ARow := l.foldr insertTs []

/-- `series.rolling(window=k).mean().iloc[-1]`: NaN (`none`) when the series
is shorter than the lookback `k`, otherwise the mean of the last `k`
entries. -/
def lastRollingMean (k : Nat) (closes : List ℚ) : Option ℚ :=
  if closes.length < k then none
  else some ((closes.drop (closes.length - k)).sum / (k : ℚ))

/-- `series.pct_change() * 100` without its leading NaN:
`(cur - prev) / prev * 100` for consecutive entries. -/
def pct_changes (closes : List ℚ) : List ℚ :=
  (closes.zip closes.tail).map (fun p => (p.2 - p.1) / p.1 * 100)

/-- `series.std() > t` for a threshold `t ≥ 0`: pandas sample standard
deviation (`ddof = 1`, NaN — hence a false comparison — below 2 entries),
embedded as the equivalent comparison `variance > t^2` on rationals. -/
def stdGT (xs : List ℚ) (t : ℚ) : Bool :=
  if xs.length < 2 then false
  else
    let n : ℚ := xs.length
    let m := xs.sum / n
    decide (t ^ 2 * (n - 1) < (xs.map (fun x => (x - m) ^ 2)).sum)

/-- Prefix test on character lists. -/
def charPref : List Char → List Char → Bool
  | [], _ => true
  | _ :: _, [] => false
  | a :: as, b :: bs => a == b && charPref as bs

/-- Substring search on character lists. -/
def charSub (pat : List Char) : List Char → Bool
  | [] => pat.isEmpty
  | b :: bs => charPref pat (b :: bs) || charSub pat bs

/-- Python's `pat in s` substring test. -/
def hasSub (s pat : String) : Bool := charSub pat.data s.data

/-- The close column the daily classifier works on: drop rows with missing
closes, then sort by timestamp (the source's `dropna` then `sort_values`). -/
def dailyCloses (data : List ARow) : List ℚ :=
  (sortTs (data.filter (fun r => r.close.isSome))).map (fun r => r.close.getD 0)

/-- The daily decision cascade over the cleaned, sorted close column: the
moving-average/price-position rules, the near-equal-MA sideways override
(relative difference below `0.003`), and the volatility qualifier
(`std > 2.0`), with NaN moving averages short-circuiting to "neutral". -/
def dailyTrendCore (closes : List ℚ) : String :=
  if closes.length = 0 then "neutral"
  else
    match lastRollingMean 5 closes, lastRollingMean 15 closes with
    | some ma5, some ma15 =>
      let latest_close := closes.getLast?.getD 0
      let trend :=
        if latest_close < ma5 ∧ ma5 < ma15 then "strongly bearish"
        else if ma5 < latest_close ∧ ma15 < ma5 then "strongly bullish"
        else if latest_close < ma5 then "bearish"
        else if ma5 < latest_close then "bullish"
        else "neutral"
      let trend2 := if |ma5 - ma15| / ma15 < 3 / 1000 then "sideways" else trend
      if stdGT (pct_changes closes) 2 then
        if hasSub trend2 "bearish" then "volatile bearish"
        else if hasSub trend2 "bullish" then "volatile bullish"
        else "volatile"
      else trend2
    | _, _ => "neutral"

/-- Embedding of `get_daily_trend`: a falsy fetched array yields "neutral"
(`"No data fetched"` branch), otherwise the cascade over the cleaned sorted
closes. -/
def get_daily_trend (data : List ARow) : String :=
  if aAny data then dailyTrendCore (dailyCloses data) else "neutral"

/-- A weekly row: the weekly classifier converts every column with
`pd.to_numeric` (no coercion, no `dropna`), and fetched values are parsed
floats, so the close is a plain rational. -/
structure WRow where
  ts : Int
  open_price : ℚ
  high : ℚ
  low : ℚ
  close : ℚ
  volume : ℚ
  notional : ℚ
  deriving Repr, DecidableEq

/-- `candle_stick_data.any()` on the weekly rows. -/
def wAny (l : List WRow) : Bool :=
  l.any (fun r => decide (¬(r.ts = 0 ∧ r.open_price = 0 ∧ r.high = 0 ∧
    r.low = 0 ∧ r.close = 0 ∧ r.volume = 0 ∧ r.notional = 0)))

/-- Python `a > b` where either side may be NaN: false unless both are
numbers and the left is greater. -/
def gtB : Option ℚ → Option ℚ → Bool
  | some x, some y => decide (y < x)
  | _, _ => false

/-- `abs(a - b) / b < t` with NaN operands: false unless both are numbers. -/
def nearB (a b : Option ℚ) (t : ℚ) : Bool :=
  match a, b with
  | some x, some y => decide (|x - y| / y < t)
  | _, _ => false

/-- The weekly close column (no cleaning, no sorting in the source). -/
def weeklyCloses (data : List WRow) : List ℚ := data.map (fun r => r.close)

/-- `((latest_close - df['open'].iloc[0]) / df['open'].iloc[0]) * 100`. -/
def weeklyChangePct (data : List WRow) : ℚ :=
  let latest := (weeklyCloses data).getLast?.getD 0
  let first_open := (data.head?.map (fun r => r.open_price)).getD 0
  (latest - first_open) / first_open * 100

/-- The weekly decision cascade: MA-ordering branches first (strong when the
weekly change exceeds ±5), then `|weekly change| < 1` → "neutral", then the
near-equal-MA check (below `0.01`) → "sideways", then a positive change →
"corrective", else "volatile"; the whole label is replaced by "volatile"
when `std > 2.0`. -/
def weeklyTrendCore (closes : List ℚ) (wc : ℚ) : String :=
  let ma20 := lastRollingMean 20 closes
  let ma50 := lastRollingMean 50 closes
  let latest_close := closes.getLast?.getD 0
  let trend :=
    if gtB (some latest_close) ma20 && gtB ma20 ma50 then
      (if 5 < wc then "strongly bullish" else "bullish")
    else if gtB ma20 (some latest_close) && gtB ma50 ma20 then
      (if wc < -5 then "strongly bearish" else "bearish")
    else if |wc| < 1 then "neutral"
    else if nearB ma20 ma50 (1 / 100) then "sideways"
    else if 0 < wc then "corrective"
    else "volatile"
  if stdGT (pct_changes closes) 2 then "volatile" else trend

/-- Embedding of `get_weekly_trends`: a falsy fetched array raises
(`Exception`), otherwise the cascade over the close column and the weekly
percentage change. -/
def get_weekly_trends (data : List WRow) : Except Unit String :=
  if wAny data then
    .ok (weeklyTrendCore (weeklyCloses data) (weeklyChangePct data))
  else .error ()

/-! ### Trend classifier theorems (claims C7 and C8) -/

/-- Row constructor for concrete daily series (only the close column and the
timestamp matter to the daily classifier). -/
def arow (t : Int) (c : ℚ) : ARow := ⟨t, 100, c, c, some c, 1, 1⟩

/-- Fifteen closes tiling the pattern 90, 110, 100, 90, 110: the last-5 and
last-15 means are both 100 (near-equal), but the percentage changes swing by
double digits, so the volatility qualifier fires. -/
def dataD : List ARow :=
  [arow 1 90, arow 2 110, arow 3 100, arow 4 90, arow 5 110,
   arow 6 90, arow 7 110, arow 8 100, arow 9 90, arow 10 110,
   arow 11 90, arow 12 110, arow 13 100, arow 14 90, arow 15 110]

/-- Fifteen constant closes: near-equal moving averages and zero
volatility. -/
def data15 : List ARow :=
  [arow 1 100, arow 2 100, arow 3 100, arow 4 100, arow 5 100,
   arow 6 100, arow 7 100, arow 8 100, arow 9 100, arow 10 100,
   arow 11 100, arow 12 100, arow 13 100, arow 14 100, arow 15 100]

/-- Row constructor for concrete weekly series with first open 100. -/
def wrow (c : ℚ) : WRow := ⟨1, 100, c, c, c, 1, 1⟩

/-- Two weekly rows: both moving averages undefined, weekly change +2%. -/
def wdata2 : List WRow := [wrow 100, wrow 102]

/-- Fifty weekly closes (30 at 100, 19 at 101, one at 102): the latest close
sits above ma20 = 101.05 above ma50 = 100.42, which are within 1% of each
other. -/
def wdataB : List WRow :=
  List.replicate 30 (wrow 100) ++ List.replicate 19 (wrow 101) ++ [wrow 102]

/-- Row constructor for concrete weekly series with first open 102.5. -/
def wrowO (c : ℚ) : WRow := ⟨1, 205 / 2, c, c, c, 1, 1⟩

/-- Fifty weekly closes (30 at 102.5, 20 at 101): neither MA-ordering branch
holds, the weekly change is about -1.46%, and ma20 = 101 and ma50 = 101.9
are within 1% of each other. -/
def wdataS : List WRow :=
  List.replicate 30 (wrowO (205 / 2)) ++ List.replicate 20 (wrowO 101)

/-- Counterexample to C7 as stated. Daily: `dataD` has near-equal moving
averages (both exactly 100, relative difference 0 below the 0.003
threshold), yet the classifier returns "volatile", not "sideways" — the
volatility qualifier is applied after, and overrides, the sideways rule.
Weekly: `wdataB` has near-equal moving averages (101.05 vs 100.42, relative
difference below the 0.01 threshold), yet the classifier returns "bullish" —
the weekly sideways check sits in a fall-through branch that the
price-position rule `close > ma20 > ma50` preempts. -/
theorem trend_sideways_cex :
    (lastRollingMean 5 (dailyCloses dataD) = some 100 ∧
     lastRollingMean 15 (dailyCloses dataD) = some 100 ∧
     |(100 : ℚ) - 100| / 100 < 3 / 1000 ∧
     get_daily_trend dataD = "volatile") ∧
    (lastRollingMean 20 (weeklyCloses wdataB) = some (2021 / 20) ∧
     lastRollingMean 50 (weeklyCloses wdataB) = some (5021 / 50) ∧
     |(2021 : ℚ) / 20 - 5021 / 50| / (5021 / 50) < 1 / 100 ∧
     get_weekly_trends wdataB = .ok "bullish") := by
  constructor
  · refine ⟨?_, ?_, by norm_num, ?_⟩
    · norm_num [dailyCloses, sortTs, insertTs, dataD, arow, lastRollingMean]
    · norm_num [dailyCloses, sortTs, insertTs, dataD, arow, lastRollingMean]
    · norm_num [get_daily_trend, dailyTrendCore, dailyCloses, sortTs, insertTs,
        dataD, arow, aAny, aRowTruthy, lastRollingMean, pct_changes, stdGT]
      decide
  · refine ⟨?_, ?_, by norm_num [abs_of_nonneg, abs_of_pos], ?_⟩
    · norm_num [weeklyCloses, wdataB, wrow, List.replicate, lastRollingMean]
    · norm_num [weeklyCloses, wdataB, wrow, List.replicate, lastRollingMean]
    · norm_num [get_weekly_trends, weeklyTrendCore, weeklyCloses, weeklyChangePct,
        wAny, lastRollingMean, pct_changes, stdGT, gtB, nearB, wdataB, wrow,
        List.replicate]

/-- Claim C7 (amended) — the near-equal-moving-average rule yields "sideways"
regardless of price position only under the conditions the source actually
imposes. Daily: whenever both moving averages are defined, their relative
difference is below 0.003 and the volatility threshold is not exceeded, the
result is "sideways" whatever the latest close is. Weekly: "sideways"
additionally requires that neither MA-ordering price branch holds and that
the weekly change is at least 1% in magnitude; the volatility threshold must
not be exceeded. -/
theorem trend_sideways_correct (data : List ARow) (wdata : List WRow) :
    (aAny data = true →
      ∀ m5 m15 : ℚ, lastRollingMean 5 (dailyCloses data) = some m5 →
        lastRollingMean 15 (dailyCloses data) = some m15 →
        |m5 - m15| / m15 < 3 / 1000 →
        stdGT (pct_changes (dailyCloses data)) 2 = false →
        get_daily_trend data = "sideways") ∧
    (wAny wdata = true →
      ∀ m20 m50 : ℚ, lastRollingMean 20 (weeklyCloses wdata) = some m20 →
        lastRollingMean 50 (weeklyCloses wdata) = some m50 →
        ¬(m20 < (weeklyCloses wdata).getLast?.getD 0 ∧ m50 < m20) →
        ¬((weeklyCloses wdata).getLast?.getD 0 < m20 ∧ m20 < m50) →
        ¬(|weeklyChangePct wdata| < 1) →
        |m20 - m50| / m50 < 1 / 100 →
        stdGT (pct_changes (weeklyCloses wdata)) 2 = false →
        get_weekly_trends wdata = .ok "sideways") := by
  constructor
  · intro hA m5 m15 h5 h15 hnear hvol
    have hlen : ¬(dailyCloses data).length < 15 := by
      intro h
      simp [lastRollingMean, h] at h15
    have h0 : ¬(dailyCloses data).length = 0 := by omega
    simp only [get_daily_trend, hA, if_true]
    unfold dailyTrendCore
    rw [if_neg h0, h5, h15]
    simp only [hvol, Bool.false_eq_true, if_false]
    rw [if_pos hnear]
  · intro hA m20 m50 h20 h50 hgt hlt h1 hnear hvol
    simp only [get_weekly_trends, hA, if_true, Except.ok.injEq]
    unfold weeklyTrendCore
    rw [h20, h50]
    simp only [gtB, nearB, Bool.and_eq_true, decide_eq_true_eq, hvol,
      Bool.false_eq_true, if_false]
    rw [if_neg hgt, if_neg hlt, if_neg h1, if_pos hnear]

/-- Witness for C7 (amended): the constant daily series `data15` (near-equal
MAs, no volatility) classifies "sideways", and the weekly series `wdataS`
(near-equal MAs, no ordering branch, -1.46% change) classifies "sideways",
both by `trend_sideways_correct`. -/
theorem trend_sideways_witness :
    get_daily_trend data15 = "sideways" ∧
    get_weekly_trends wdataS = .ok "sideways" := by
  constructor
  · exact (trend_sideways_correct data15 wdataS).1 (by decide) 100 100
      (by norm_num [dailyCloses, sortTs, insertTs, data15, arow, lastRollingMean])
      (by norm_num [dailyCloses, sortTs, insertTs, data15, arow, lastRollingMean])
      (by norm_num)
      (by norm_num [dailyCloses, sortTs, insertTs, data15, arow, pct_changes, stdGT])
  · exact (trend_sideways_correct data15 wdataS).2 (by decide) 101 (1019 / 10)
      (by norm_num [weeklyCloses, wdataS, wrowO, List.replicate, lastRollingMean])
      (by norm_num [weeklyCloses, wdataS, wrowO, List.replicate, lastRollingMean])
      (by norm_num [weeklyCloses, wdataS, wrowO, List.replicate])
      (by norm_num [weeklyCloses, wdataS, wrowO, List.replicate])
      (by norm_num [weeklyChangePct, weeklyCloses, wdataS, wrowO, List.replicate,
        abs_of_pos, abs_of_nonneg, abs_of_neg])
      (by norm_num [abs_of_nonneg, abs_of_pos])
      (by norm_num [weeklyCloses, wdataS, wrowO, List.replicate, pct_changes, stdGT])

/-- Counterexample to C8 as stated: on the two-row weekly series `wdata2`
both moving averages are undefined (series shorter than the 20/50 lookbacks),
yet the weekly classification returns "corrective", not "neutral" — the
weekly variant has no NaN-moving-average guard, and a +2% weekly change falls
through to the "corrective" branch. -/
theorem trend_insufficient_cex :
    (weeklyCloses wdata2).length < 20 ∧
    get_weekly_trends wdata2 = .ok "corrective" := by
  constructor
  · decide
  · norm_num [get_weekly_trends, weeklyTrendCore, weeklyCloses, weeklyChangePct,
      wAny, lastRollingMean, pct_changes, stdGT, gtB, nearB, wdata2, wrow]

/-- Claim C8 (amended) — insufficient-data behaviour differs between the two
variants. Daily: a cleaned series shorter than the 15-bar lookback (which
also covers the 5-bar one) always classifies "neutral". Weekly: with both
moving averages undefined (series shorter than the 20-bar lookback) the
result is not forced to "neutral": it is "neutral" exactly when the weekly
change is below 1% in magnitude (and the volatility threshold is not
exceeded), and otherwise "corrective" (positive change) or "volatile". -/
theorem trend_insufficient_correct (data : List ARow) (wdata : List WRow) :
    ((dailyCloses data).length < 15 → get_daily_trend data = "neutral") ∧
    (wAny wdata = true → (weeklyCloses wdata).length < 20 →
      get_weekly_trends wdata = .ok
        (if stdGT (pct_changes (weeklyCloses wdata)) 2 then "volatile"
         else if |weeklyChangePct wdata| < 1 then "neutral"
         else if 0 < weeklyChangePct wdata then "corrective"
         else "volatile")) := by
  constructor
  · intro h15
    by_cases hA : aAny data
    · have hm15 : lastRollingMean 15 (dailyCloses data) = none := by
        simp [lastRollingMean, h15]
      simp only [get_daily_trend, hA, if_true]
      unfold dailyTrendCore
      by_cases h0 : (dailyCloses data).length = 0
      · rw [if_pos h0]
      · rw [if_neg h0, hm15]
        rcases lastRollingMean 5 (dailyCloses data) with _ | m5 <;> rfl
    · simp [get_daily_trend, hA]
  · intro hA h20
    have hm20 : lastRollingMean 20 (weeklyCloses wdata) = none := by
      simp [lastRollingMean, h20]
    have hm50 : lastRollingMean 50 (weeklyCloses wdata) = none := by
      have : (weeklyCloses wdata).length < 50 := by omega
      simp [lastRollingMean, this]
    simp only [get_weekly_trends, hA, if_true, Except.ok.injEq]
    unfold weeklyTrendCore
    rw [hm20, hm50]
    simp only [gtB, nearB, Bool.and_eq_true, Bool.false_and, Bool.and_false]
    simp

/-- Witness for C8 (amended): the empty daily series classifies "neutral",
and the two-row weekly series `wdata2` (+2% change) classifies "corrective",
both by `trend_insufficient_correct`. -/
theorem trend_insufficient_witness :
    get_daily_trend ([] : List ARow) = "neutral" ∧
    get_weekly_trends wdata2 = .ok "corrective" := by
  constructor
  · exact (trend_insufficient_correct [] wdata2).1 (by decide)
  · have h := (trend_insufficient_correct [] wdata2).2 (by decide) (by decide)
    rw [h]
    norm_num [weeklyCloses, weeklyChangePct, wdata2, wrow, pct_changes, stdGT]

end HistRate
